import Mathlib

/-!
Shallow embedding of the term-ai CLI (src/main.rs) and verification of its
specification claims.  Pure logic of the program (search-result extraction,
tool dispatch, provider selection, prompt assembly, the tool-calling
orchestration loop) is translated function by function from the Rust source;
the HTTP transport (reqwest) and the HTML parser (scraper) are opaque
collaborators, so the functions that used them take the transport outcome or
the parsed record list as an explicit argument.  Machine strings are Lean
Strings; character-level operations of Rust (trim, to_lowercase) are modelled
on the ASCII fragment, which covers every string the program compares against.
-/

namespace TermAI

/-- Model of serde_json::Value. -/
inductive JsonValue where
  | null
  | bool (b : Bool)
  | num (n : Int)
  | str (s : String)
  | arr (items : List JsonValue)
  | obj (fields : List (String × JsonValue))

/-- Field lookup on an object; none when the value is not an object or the
key is absent (serde map.get). -/
def JsonValue.getField (j : JsonValue) (key : String) : Option JsonValue :=
  match j with
  | .obj fields => fields.lookup key
  | _ => none

/-- Model of serde_json Value indexing `j[key]`: on an object, the field value
or Null when absent; Null on any non-object. -/
def JsonValue.index (j : JsonValue) (key : String) : JsonValue :=
  (j.getField key).getD .null

/-- Model of Value::as_str. -/
def JsonValue.asStr (j : JsonValue) : Option String :=
  match j with
  | .str s => some s
  | _ => none

/-- Model of Value::as_array. -/
def JsonValue.asArr (j : JsonValue) : Option (List JsonValue) :=
  match j with
  | .arr items => some items
  | _ => none

/-- SearchResult from src/main.rs lines 109-114. -/
structure SearchResult where
  title : String
  url : String
  snippet : String

/-- Model of str::trim (ASCII whitespace fragment of the Unicode trim Rust
performs; every string the program itself produces is ASCII). -/
def rust_trim (s : String) : String :=
  ⟨((s.data.dropWhile Char.isWhitespace).reverse.dropWhile Char.isWhitespace).reverse⟩

/-- Model of str::to_lowercase (ASCII fragment of the Unicode lowering Rust
performs; the provider names compared against are ASCII). -/
def rust_to_lowercase (s : String) : String :=
  ⟨s.data.map Char.toLower⟩

/-- One `.result` block of the scraped DuckDuckGo document, before the
unwrap_or_default: each field is the collected text of the first matching
child element, when one exists (lines 159-175). -/
structure RawDoc where
  title : Option String
  url : Option String
  snippet : Option String

/-- `.map(|e| text.trim().to_string()).unwrap_or_default()` applied to one
optional selector match. -/
def extract_field (o : Option String) : String :=
  (o.map rust_trim).getD ""

/-- The SearchResult a raw block would yield (title, url, snippet each
trimmed, empty when missing). -/
def extract_record (r : RawDoc) : SearchResult :=
  ⟨extract_field r.title, extract_field r.url, extract_field r.snippet⟩

/-- A record survives the filter when both title and url are nonempty
(lines 177 and 230). -/
def wellformed (r : SearchResult) : Bool :=
  !(r.title == "") && !(r.url == "")

/-- The record-collection loop of DuckDuckGoProvider::search (lines 156-184):
iterate over the first max_results result blocks, push the extracted record
when title and url are nonempty. -/
def ddg_collect (records : List RawDoc) (max_results : Nat) : List SearchResult :=
  (records.take max_results).foldl
    (fun results r =>
      let title := extract_field r.title
      let url := extract_field r.url
      let snippet := extract_field r.snippet
      if !(title == "") && !(url == "") then
        results ++ [⟨title, url, snippet⟩]
      else
        results)
    []

/-- DuckDuckGoProvider::search with the HTTP transport and HTML parser
abstracted: the argument is either the transport failure (non-success status
or connection error, lines 142-146) or the list of parsed `.result` blocks. -/
def duckduckgo_search (transport : Except String (List RawDoc)) (max_results : Nat) :
    Except String (List SearchResult) :=
  match transport with
  | .error e => .error e
  | .ok records => .ok (ddg_collect records max_results)

/-- One item extracted from the Brave results array (lines 226-228). -/
def brave_extract (item : JsonValue) : SearchResult :=
  ⟨((item.index "title").asStr).getD "",
   ((item.index "url").asStr).getD "",
   ((item.index "description").asStr).getD ""⟩

/-- The record-collection loop of BraveProvider::search (lines 222-238):
walk json["web"]["results"] when it is an array, taking at most max_results
items, keeping those with nonempty title and url. -/
def brave_collect (json : JsonValue) (max_results : Nat) : List SearchResult :=
  match ((json.index "web").index "results").asArr with
  | some web_results =>
      (web_results.take max_results).foldl
        (fun results item =>
          let title := ((item.index "title").asStr).getD ""
          let url := ((item.index "url").asStr).getD ""
          let snippet := ((item.index "description").asStr).getD ""
          if !(title == "") && !(url == "") then
            results ++ [⟨title, url, snippet⟩]
          else
            results)
        []
  | none => []

/-- BraveProvider::search with the HTTP transport abstracted: the argument is
either the transport failure (lines 212-219) or the parsed JSON body. -/
def brave_search (transport : Except String JsonValue) (max_results : Nat) :
    Except String (List SearchResult) :=
  match transport with
  | .error e => .error e
  | .ok json => .ok (brave_collect json max_results)

/-- The fixed text of build_prompt up to the `{}` placeholder (lines 246-258). -/
def prompt_template : String :=
  "You are an expert macOS terminal and development environment engineer.\n\nConstraints:\n- Respond ONLY with valid shell commands, one per line.\n- Do not include explanations, comments, Markdown, or prose.\n- Prefer Homebrew for package installation where appropriate.\n- Avoid destructive operations (no rm -rf, no disk formatting, no sudo unless clearly necessary and safe).\n\nUser request:\n"

/-- build_prompt (lines 245-259): the fixed template with the user request
interpolated at the end. -/
def build_prompt (user_request : String) : String :=
  prompt_template ++ user_request

/-- Substring test, needle against every suffix of the haystack. -/
def contains_aux (needle : List Char) : List Char → Bool
  | [] => needle.isPrefixOf []
  | c :: rest => needle.isPrefixOf (c :: rest) || contains_aux needle rest

/-- `hay.contains(needle)` on strings. -/
def str_contains (hay needle : String) : Bool :=
  contains_aux needle.data hay.data

/-- get_user_prompt (lines 287-305): a CLI prompt is returned as-is; otherwise
the stdin read outcome (abstracted transport) is trimmed and rejected when
empty.  Errors are their message strings. -/
def get_user_prompt (cli_prompt : Option String) ( stdin_input : Except String String) :
    Except String String :=
  match cli_prompt with
  | some prompt => .ok prompt
  | none =>
    match stdin_input with
    | .error e => .error e
    | .ok buffer =>
      let trimmed := rust_trim buffer
      if trimmed == "" then
        .error "No prompt provided via argument or stdin"
      else
        .ok trimmed

/-- The fields of Args (lines 13-41) that provider selection reads. -/
structure Args where
  prompt : Option String
  model : String
  endpoint : String
  websearch : Bool
  search_provider : Option String
  brave_api_key : Option String
  max_results : Nat

/-- The provider value create_search_provider returns (the two SearchProvider
implementations, lines 125 and 190-192). -/
inductive ProviderImpl where
  | duckduckgo
  | brave (api_key : String)

/-- create_search_provider (lines 308-340).  Rust matches the lowered name
against the two string literals; the match is the equality chain below. -/
def create_search_provider (args : Args) : Except String ProviderImpl :=
  let provider :=
    match args.search_provider with
    | some p => rust_to_lowercase p
    | none =>
      if args.brave_api_key.isSome then "brave" else "duckduckgo"
  if provider == "duckduckgo" then
    .ok .duckduckgo
  else if provider == "brave" then
    match args.brave_api_key with
    | some api_key => .ok (.brave api_key)
    | none => .error "Brave search provider requires an API key. Provide via --brave-api-key or BRAVE_API_KEY environment variable."
  else
    .error ("Unknown search provider: \x27" ++ provider ++ "\x27. Valid options: duckduckgo, brave")

/-- FunctionCall (lines 100-106). -/
structure FunctionCallData where
  index : Option Int
  name : String
  arguments : JsonValue

/-- ToolCall (lines 92-98). -/
structure ToolCallData where
  id : String
  call_type : Option String
  function : FunctionCallData

/-- Message (lines 56-62). -/
structure Message where
  role : String
  content : String
  tool_calls : Option (List ToolCallData)

/-- Function (lines 85-90). -/
structure FunctionDecl where
  name : String
  description : String
  parameters : JsonValue

/-- Tool (lines 78-83). -/
structure Tool where
  tool_type : String
  function : FunctionDecl

/-- build_initial_messages (lines 343-364). -/
def build_initial_messages (user_request : String) : List Message :=
  [ { role := "system",
      content := "You are an expert macOS terminal and development environment engineer.\n\nConstraints:\n- Respond ONLY with valid shell commands, one per line.\n- Do not include explanations, comments, Markdown, or prose.\n- Prefer Homebrew for package installation where appropriate.\n- Avoid destructive operations (no rm -rf, no disk formatting, no sudo unless clearly necessary and safe).\n\nWhen you need current information (latest versions, recent releases, current documentation), use the web_search tool to find up-to-date information before responding.",
      tool_calls := none },
    { role := "user",
      content := user_request,
      tool_calls := none } ]

/-- build_tool_definitions (lines 367-385). -/
def build_tool_definitions : List Tool :=
  [ { tool_type := "function",
      function :=
        { name := "web_search",
          description := "Search the web for current information, latest versions, recent documentation, or up-to-date facts. Use this when you need information that may have changed recently or when the user asks about \x27latest\x27 or \x27current\x27 versions.",
          parameters :=
            .obj [ ("type", .str "object"),
                   ("properties",
                    .obj [ ("query",
                            .obj [ ("type", .str "string"),
                                   ("description", .str "The search query to execute") ]) ]),
                   ("required", .arr [.str "query"]) ] } } ]

/-- The search capability of a provider, `search(query, max_results)`; the
realized providers plug their transport in through it. -/
def SearchFn : Type := String → Nat → Except String (List SearchResult)

/-- JSON string escaping as serde performs it when serializing. -/
def escape_char (c : Char) : String :=
  if c == '"' then "\\\""
  else if c == '\\' then "\\\\"
  else if c == '\n' then "\\n"
  else if c == '\r' then "\\r"
  else if c == '\t' then "\\t"
  else if c == Char.ofNat 8 then "\\b"
  else if c == Char.ofNat 12 then "\\f"
  else if c.toNat < 32 then
    "\\u00" ++ String.singleton (Nat.digitChar (c.toNat / 16)) ++
      String.singleton (Nat.digitChar (c.toNat % 16))
  else String.singleton c

/-- A JSON string literal for s. -/
def escape_string (s : String) : String :=
  "\"" ++ String.join (s.data.map escape_char) ++ "\""

/-- One SearchResult as serde_json::to_string_pretty renders it inside the
top-level array (field order title, url, snippet as declared). -/
def result_to_pretty (r : SearchResult) : String :=
  "  \x7b\n    \"title\": " ++ escape_string r.title ++
  ",\n    \"url\": " ++ escape_string r.url ++
  ",\n    \"snippet\": " ++ escape_string r.snippet ++ "\n  \x7d"

/-- serde_json::to_string_pretty on a Vec of SearchResult (line 433); total,
as serialization of this type never fails. -/
def to_string_pretty (results : List SearchResult) : String :=
  match results with
  | [] => "[]"
  | _ => "[\n" ++ String.intercalate ",\n" (results.map result_to_pretty) ++ "\n]"

/-- execute_tool (lines 420-438).  The Rust match on the name string is the
equality test below; errors are their message strings. -/
def execute_tool (tool_call : ToolCallData) (provider : SearchFn) (max_results : Nat) :
    Except String String :=
  if tool_call.function.name == "web_search" then
    match (tool_call.function.arguments.index "query").asStr with
    | none => .error "Missing \x27query\x27 parameter in tool call"
    | some query =>
      match provider query max_results with
      | .error e => .error e
      | .ok results => .ok (to_string_pretty results)
  else
    .error ("Unknown tool: " ++ tool_call.function.name)

/-- The tool-role message the loop pushes for one tool call (lines 462-473):
the execution result, or the error rendered as text. -/
def tool_result_message (provider : SearchFn) (max_results : Nat)
    (tool_call : ToolCallData) : Message :=
  { role := "tool",
    content :=
      match execute_tool tool_call provider max_results with
      | .ok result => result
      | .error e => "Error executing tool: " ++ e,
    tool_calls := none }

/-- The MAX_ITERATIONS constant of chat_with_tools (line 450). -/
def MAX_ITERATIONS : Nat := 10

/-- The error chat_with_tools returns when the iteration budget is spent
(lines 485-489), with MAX_ITERATIONS = 10 interpolated. -/
def max_iterations_error : String :=
  "Maximum iterations (10) exceeded. The model may be stuck in a tool-calling loop."

/-- The observable outcome of the loop body of chat_with_tools: the returned
value, the final state of the `messages` vector, and how many model calls
(AwaitingModel entries) were made. -/
structure ChatOutcome where
  result : Except String String
  messages : List Message
  model_calls : Nat

/-- The for-loop of chat_with_tools (lines 452-483), fuel = remaining
iterations.  The model client abstracts call_ollama_chat with the fixed model,
endpoint and tool declarations applied: it maps the conversation to the
response message or the transport/parse failure.  Each iteration calls the
client once; on tool calls it pushes the assistant message and one tool-role
message per call in order, then continues; on a plain answer it returns the
content; a client failure propagates (the `?` on line 453). -/
def chat_loop (client : List Message → Except String Message) (provider : SearchFn)
    (max_results : Nat) : Nat → List Message → ChatOutcome
  | 0, messages => ⟨.error max_iterations_error, messages, 0⟩
  | fuel + 1, messages =>
    match client messages with
    | .error e => ⟨.error e, messages, 1⟩
    | .ok msg =>
      match msg.tool_calls with
      | some tool_calls =>
        if tool_calls.isEmpty then
          ⟨.ok msg.content, messages, 1⟩
        else
          let messages2 := (messages ++ [msg]) ++
            tool_calls.map (tool_result_message provider max_results)
          let rest := chat_loop client provider max_results fuel messages2
          ⟨rest.result, rest.messages, rest.model_calls + 1⟩
      | none => ⟨.ok msg.content, messages, 1⟩

/-- chat_with_tools (lines 441-490): run the loop from the initial two-message
conversation with the iteration budget; the Rust function returns only the
result component. -/
def chat_with_tools (client : List Message → Except String Message)
    (user_request : String) (provider : SearchFn) (max_results : Nat) :
    Except String String :=
  (chat_loop client provider max_results MAX_ITERATIONS
    (build_initial_messages user_request)).result

/-- The condition of the MissingParameter failure as the claim states it: the
arguments lack a "query" field, or that field is not a string. -/
def query_missing_or_nonstring (args : JsonValue) : Prop :=
  args.getField "query" = none ∨ ∃ v, args.getField "query" = some v ∧ v.asStr = none

/-- The MissingCredential message of create_search_provider (line 331). -/
def missing_credential_error : String :=
  "Brave search provider requires an API key. Provide via --brave-api-key or BRAVE_API_KEY environment variable."

/-- The UnknownProvider message of create_search_provider (lines 334-338). -/
def unknown_provider_error (provider : String) : String :=
  "Unknown search provider: \x27" ++ provider ++ "\x27. Valid options: duckduckgo, brave"

/-- A concrete well-formed web_search tool call, used by witnesses. -/
def tc0 : ToolCallData := ⟨"1", none, ⟨none, "web_search", .obj [("query", .str "q")]⟩⟩

/-- A concrete tool call naming an unregistered tool, used by witnesses. -/
def tcBad : ToolCallData := ⟨"2", none, ⟨none, "bad_tool", .null⟩⟩

/-- A concrete web_search call with empty arguments, used by witnesses. -/
def tcMissing : ToolCallData := ⟨"3", none, ⟨none, "web_search", .obj []⟩⟩

/-- A concrete provider stub whose search always succeeds with no results. -/
def provider0 : SearchFn := fun _ _ => .ok []

/-- A model-client stub that always requests one tool call. -/
def client0 : List Message → Except String Message :=
  fun _ => .ok ⟨"assistant", "", some [tc0]⟩

/-- A model-client stub whose call always fails (transport failure). -/
def clientErr : List Message → Except String Message :=
  fun _ => .error "boom"

/-- The assistant message carrying one tool call, returned first by the
two-step stub. -/
def m1c : Message := ⟨"assistant", "", some [tc0]⟩

/-- The plain final assistant answer, returned second by the two-step stub. -/
def m2c : Message := ⟨"assistant", "echo hi", none⟩

/-- A model-client stub that requests one tool call on the first call (the
conversation still has its initial two messages) and answers plainly after. -/
def client2 : List Message → Except String Message :=
  fun msgs => if msgs.length == 2 then .ok m1c else .ok m2c

end TermAI

namespace TermAI

/-! Helper lemmas shared by the claim theorems. -/

/-- Folding the push-if-wellformed step equals filtering the mapped list. -/
lemma foldl_push_filter {α : Type} (g : α → SearchResult) (l : List α) (acc : List SearchResult) :
    l.foldl (fun results a => if wellformed (g a) then results ++ [g a] else results) acc
      = acc ++ (l.map g).filter wellformed := by
  induction l generalizing acc with
  | nil => simp
  | cons a l ih =>
    by_cases h : wellformed (g a)
    · simp [List.foldl_cons, h, ih, List.filter_cons, List.append_assoc]
    · simp [List.foldl_cons, h, ih, List.filter_cons]

/-- The DuckDuckGo collection loop in closed form: the well-formed records
among the first max_results parsed blocks, in document order. -/
lemma ddg_collect_eq (records : List RawDoc) (m : Nat) :
    ddg_collect records m = ((records.take m).map extract_record).filter wellformed := by
  have h : ddg_collect records m
      = (records.take m).foldl
          (fun results r =>
            if wellformed (extract_record r) then results ++ [extract_record r] else results) [] := rfl
  rw [h, foldl_push_filter]
  simp

/-- The Brave collection loop in closed form. -/
lemma brave_collect_eq (j : JsonValue) (m : Nat) :
    brave_collect j m
      = match ((j.index "web").index "results").asArr with
        | some items => ((items.take m).map brave_extract).filter wellformed
        | none => [] := by
  unfold brave_collect
  cases h : ((j.index "web").index "results").asArr with
  | none => rfl
  | some items =>
    have h2 : (items.take m).foldl
        (fun results item =>
          if wellformed (brave_extract item) then results ++ [brave_extract item] else results) []
        = ((items.take m).map brave_extract).filter wellformed := by
      rw [foldl_push_filter]
      simp
    exact h2

/-- A list is a prefix of itself under the boolean test. -/
lemma isPrefixOf_self (l : List Char) : l.isPrefixOf l = true := by
  induction l with
  | nil => rfl
  | cons c r ih => simp [List.isPrefixOf, ih]

/-- A suffix occurs as a substring. -/
lemma contains_aux_append (xs ys : List Char) : contains_aux ys (xs ++ ys) = true := by
  induction xs with
  | nil =>
    cases ys with
    | nil => rfl
    | cons c r => simp [contains_aux, isPrefixOf_self]
  | cons x xs ih => simp [contains_aux, ih]

/-- The assembled prompt always contains the user request. -/
lemma str_contains_build_prompt (r : String) : str_contains (build_prompt r) r = true := by
  have h : (build_prompt r).data = prompt_template.data ++ r.data := rfl
  show contains_aux r.data (build_prompt r).data = true
  rw [h]
  exact contains_aux_append _ _

/-- A string value is recovered by asStr. -/
lemma asStr_some {v : JsonValue} {s : String} (h : v.asStr = some s) : v = .str s := by
  cases v <;> simp_all [JsonValue.asStr]

/-- Lowercasing the lowercase provider names is the identity. -/
lemma lower_ddg : rust_to_lowercase "duckduckgo" = "duckduckgo" := by decide

/-- Lowercasing the lowercase provider names is the identity. -/
lemma lower_brave : rust_to_lowercase "brave" = "brave" := by decide

/-- Running the loop with no remaining iterations yields the
MaxIterationsExceeded error without a model call. -/
lemma chat_loop_zero (client : List Message → Except String Message) (p : SearchFn)
    (m : Nat) (msgs : List Message) :
    chat_loop client p m 0 msgs = ⟨.error max_iterations_error, msgs, 0⟩ := rfl

/-- A model-call failure ends the loop with that error after one model call,
leaving the conversation unchanged. -/
lemma chat_loop_client_error (client : List Message → Except String Message) (p : SearchFn)
    (m fuel : Nat) (msgs : List Message) (e : String) (h : client msgs = .error e) :
    chat_loop client p m (fuel + 1) msgs = ⟨.error e, msgs, 1⟩ := by
  simp [chat_loop, h]

/-- A plain assistant answer (no tool calls) ends the loop, returning its
content after one model call, without appending it to the conversation. -/
lemma chat_loop_plain (client : List Message → Except String Message) (p : SearchFn)
    (m fuel : Nat) (msgs : List Message) (msg : Message)
    (h : client msgs = .ok msg) (h2 : msg.tool_calls = none) :
    chat_loop client p m (fuel + 1) msgs = ⟨.ok msg.content, msgs, 1⟩ := by
  simp [chat_loop, h, h2]

/-- An assistant message with tool calls is appended together with one
tool-role result message per call, in order, and the loop continues. -/
lemma chat_loop_tools (client : List Message → Except String Message) (p : SearchFn)
    (m fuel : Nat) (msgs : List Message) (msg : Message) (tcs : List ToolCallData)
    (h : client msgs = .ok msg) (h2 : msg.tool_calls = some tcs) (h3 : tcs ≠ []) :
    chat_loop client p m (fuel + 1) msgs =
      ⟨(chat_loop client p m fuel ((msgs ++ [msg]) ++ tcs.map (tool_result_message p m))).result,
       (chat_loop client p m fuel ((msgs ++ [msg]) ++ tcs.map (tool_result_message p m))).messages,
       (chat_loop client p m fuel ((msgs ++ [msg]) ++ tcs.map (tool_result_message p m))).model_calls + 1⟩ := by
  have h4 : tcs.isEmpty = false := by
    cases tcs with
    | nil => exact absurd rfl h3
    | cons a l => rfl
  simp [chat_loop, h, h2, h4]

/-- Under a client that always requests tool calls, the loop spends its whole
budget: one model call per remaining iteration, ending in the
MaxIterationsExceeded error. -/
lemma chat_loop_always_tools (client : List Message → Except String Message) (p : SearchFn)
    (m : Nat)
    (H : ∀ msgs, ∃ msg tcs, client msgs = .ok msg ∧ msg.tool_calls = some tcs ∧ tcs ≠ []) :
    ∀ (fuel : Nat) (msgs : List Message),
      (chat_loop client p m fuel msgs).result = .error max_iterations_error ∧
      (chat_loop client p m fuel msgs).model_calls = fuel := by
  intro fuel
  induction fuel with
  | zero => intro msgs; exact ⟨rfl, rfl⟩
  | succ n ih =>
    intro msgs
    obtain ⟨msg, tcs, h, h2, h3⟩ := H msgs
    rw [chat_loop_tools client p m n msgs msg tcs h h2 h3]
    have hn := ih ((msgs ++ [msg]) ++ tcs.map (tool_result_message p m))
    exact ⟨hn.1, by rw [hn.2]⟩

end TermAI

namespace TermAI

/-- Claim C1, counterexample: with max_results = 2 and a source whose first
record is malformed (no title) followed by two well-formed records, the
DuckDuckGo collection returns a single result even though the source holds
two well-formed records — the malformed record consumed one of the two
scanned slots, so malformed records do count toward max_results and the
provider does not keep scanning later records. -/
theorem C1_counterexample :
    ddg_collect [⟨none, some "u0", none⟩, ⟨some "t1", some "u1", none⟩, ⟨some "t2", some "u2", none⟩] 2
      = [⟨"t1", "u1", ""⟩] ∧
    ((([⟨none, some "u0", none⟩, ⟨some "t1", some "u1", none⟩, ⟨some "t2", some "u2", none⟩] :
        List RawDoc).map extract_record).filter wellformed).length = 2 ∧
    (ddg_collect [⟨none, some "u0", none⟩, ⟨some "t1", some "u1", none⟩, ⟨some "t2", some "u2", none⟩] 2).length < 2 :=
  ⟨rfl, rfl, by decide⟩

/-- Claim C1, amended: a parsed record missing a title or url is dropped from
the returned list, but it does count toward max_results: each provider scans
only the first max_results parsed records and filters those, so the result is
exactly the well-formed records among the first max_results of the source, in
source order. -/
theorem C1_take_then_filter :
    (∀ (records : List RawDoc) (m : Nat),
      ddg_collect records m = ((records.take m).map extract_record).filter wellformed) ∧
    (∀ (items : List JsonValue) (m : Nat),
      brave_collect (.obj [("web", .obj [("results", .arr items)])]) m
        = ((items.take m).map brave_extract).filter wellformed) := by
  constructor
  · exact ddg_collect_eq
  · intro items m
    rw [brave_collect_eq]
    rfl

set_option maxRecDepth 8000 in
/-- Claim C7, counterexample: the universal non-containment part fails — for
the distinct requests r1 = "install node" and r2 = "node", the prompt built
from r1 does contain the text of r2. -/
theorem C7_counterexample :
    ("install node" ≠ "node") ∧
    str_contains (build_prompt "install node") "node" = true :=
  ⟨by decide, by decide⟩

set_option maxRecDepth 8000 in
/-- Claim C7, amended: build_prompt is deterministic and pure, and for every
request r the prompt contains the exact text of r as a substring; the
non-containment of a distinct second request does not hold universally (it
fails whenever r2 occurs inside the fixed template or inside r1) but holds
for pairs without such overlap, e.g. "setup zsh" versus "install node". -/
theorem C7_build_prompt :
    (∀ r : String, build_prompt r = build_prompt r) ∧
    (∀ r : String, str_contains (build_prompt r) r = true) ∧
    ("setup zsh" ≠ "install node" ∧
      str_contains (build_prompt "setup zsh") "setup zsh" = true ∧
      str_contains (build_prompt "setup zsh") "install node" = false) :=
  ⟨fun _ => rfl, str_contains_build_prompt, by decide, by decide, by decide⟩

/-- Claim C8: a prompt supplied as a command-line argument is returned by
get_user_prompt verbatim — not trimmed, and an empty or whitespace-only
argument is accepted; trimming and the empty-input rejection apply only on
the standard-input path, where a read failure also propagates. -/
theorem C8_get_user_prompt :
    (∀ (p : String) ( stdin_input : Except String String),
      get_user_prompt (some p) stdin_input = .ok p) ∧
    (get_user_prompt (some "") (.ok "x") = .ok "" ∧
      get_user_prompt (some "  \n ") (.ok "x") = .ok "  \n ") ∧
    (∀ s : String,
      get_user_prompt none (.ok s)
        = if rust_trim s == "" then .error "No prompt provided via argument or stdin"
          else .ok (rust_trim s)) ∧
    (∀ e : String, get_user_prompt none (.error e) = .error e) ∧
    get_user_prompt none (.ok "  \n ") = .error "No prompt provided via argument or stdin" :=
  ⟨fun _ _ => rfl, ⟨rfl, rfl⟩, fun _ => rfl, fun _ => rfl, rfl⟩

/-- Claim C9: on a successful transport, either search succeeds with the
filtered list (malformed records never make the call fail), every returned
result has a nonempty title and url, the length is at most max_results, and
a kept record may have an empty snippet. -/
theorem C9_search_invariants :
    (∀ (records : List RawDoc) (m : Nat),
      duckduckgo_search (.ok records) m = .ok (ddg_collect records m) ∧
      (ddg_collect records m).length ≤ m ∧
      (ddg_collect records m).all wellformed = true) ∧
    (∀ (j : JsonValue) (m : Nat),
      brave_search (.ok j) m = .ok (brave_collect j m) ∧
      (brave_collect j m).length ≤ m ∧
      (brave_collect j m).all wellformed = true) ∧
    ddg_collect [⟨some "t", some "u", none⟩] 1 = [⟨"t", "u", ""⟩] := by
  refine ⟨?_, ?_, rfl⟩
  · intro records m
    refine ⟨rfl, ?_, ?_⟩
    · rw [ddg_collect_eq]
      calc (((records.take m).map extract_record).filter wellformed).length
          ≤ ((records.take m).map extract_record).length := List.length_filter_le _ _
        _ = (records.take m).length := List.length_map _ _
        _ ≤ m := List.length_take_le _ _
    · rw [ddg_collect_eq]
      simp [List.all_eq_true]
  · intro j m
    refine ⟨rfl, ?_, ?_⟩
    · rw [brave_collect_eq]
      cases h : ((j.index "web").index "results").asArr with
      | none => simp
      | some items =>
        simp only
        calc (((items.take m).map brave_extract).filter wellformed).length
            ≤ ((items.take m).map brave_extract).length := List.length_filter_le _ _
          _ = (items.take m).length := List.length_map _ _
          _ ≤ m := List.length_take_le _ _
    · rw [brave_collect_eq]
      cases h : ((j.index "web").index "results").asArr with
      | none => simp
      | some items =>
        simp [List.all_eq_true]

end TermAI

namespace TermAI

/-- Claim C2, counterexample: with a stub client returning one tool call and
then the plain answer "echo hi", the final conversation has four messages
(system, user, assistant with the tool call, tool result) — the final
assistant answer is returned but never appended to the conversation, so the
claimed five-message conversation does not occur. -/
theorem C2_counterexample :
    (chat_loop client2 provider0 5 MAX_ITERATIONS (build_initial_messages "r")).messages
      = build_initial_messages "r" ++ [m1c, ⟨"tool", "[]", none⟩] ∧
    (chat_loop client2 provider0 5 MAX_ITERATIONS (build_initial_messages "r")).messages.map Message.role
      = ["system", "user", "assistant", "tool"] ∧
    (chat_loop client2 provider0 5 MAX_ITERATIONS (build_initial_messages "r")).messages.length = 4 ∧
    chat_with_tools client2 "r" provider0 5 = .ok "echo hi" :=
  ⟨rfl, rfl, rfl, rfl⟩

/-- Claim C2, amended: for a model client that first returns an assistant
message with one ToolCall and then a plain answer, the conversation built by
the loop is, in order, exactly [system, user, assistant carrying the
ToolCall, tool message with the execution result]; the final assistant
message is not appended but returned, and the string the loop returns equals
the content of that final assistant message. -/
theorem C2_loop_conversation (client : List Message → Except String Message) (p : SearchFn)
    (m : Nat) (r : String) (m1 m2 : Message) (tc : ToolCallData)
    (h1 : client (build_initial_messages r) = .ok m1)
    (htc : m1.tool_calls = some [tc])
    (hrole : m1.role = "assistant")
    (h2 : client ((build_initial_messages r ++ [m1]) ++ [tool_result_message p m tc]) = .ok m2)
    (hm2 : m2.tool_calls = none) :
    chat_with_tools client r p m = .ok m2.content ∧
    (chat_loop client p m MAX_ITERATIONS (build_initial_messages r)).messages
      = (build_initial_messages r ++ [m1]) ++ [tool_result_message p m tc] ∧
    ((chat_loop client p m MAX_ITERATIONS (build_initial_messages r)).messages).map Message.role
      = ["system", "user", "assistant", "tool"] := by
  have s1 : chat_loop client p m MAX_ITERATIONS (build_initial_messages r)
      = ⟨(chat_loop client p m 9 ((build_initial_messages r ++ [m1]) ++ [tool_result_message p m tc])).result,
         (chat_loop client p m 9 ((build_initial_messages r ++ [m1]) ++ [tool_result_message p m tc])).messages,
         (chat_loop client p m 9 ((build_initial_messages r ++ [m1]) ++ [tool_result_message p m tc])).model_calls + 1⟩ :=
    chat_loop_tools client p m 9 (build_initial_messages r) m1 [tc] h1 htc (by simp)
  have s2 : chat_loop client p m 9 ((build_initial_messages r ++ [m1]) ++ [tool_result_message p m tc])
      = ⟨.ok m2.content, (build_initial_messages r ++ [m1]) ++ [tool_result_message p m tc], 1⟩ :=
    chat_loop_plain client p m 8 _ m2 h2 hm2
  have key : chat_loop client p m MAX_ITERATIONS (build_initial_messages r)
      = ⟨.ok m2.content, (build_initial_messages r ++ [m1]) ++ [tool_result_message p m tc], 2⟩ := by
    rw [s1, s2]
  refine ⟨?_, ?_, ?_⟩
  · show (chat_loop client p m MAX_ITERATIONS (build_initial_messages r)).result = .ok m2.content
    rw [key]
  · rw [key]
  · rw [key]
    simp [build_initial_messages, tool_result_message, hrole]

/-- Witness for C2: the amended theorem applied to the concrete two-step stub
client, the empty-result provider, and the request "r". -/
theorem C2_witness :
    chat_with_tools client2 "r" provider0 5 = .ok m2c.content ∧
    (chat_loop client2 provider0 5 MAX_ITERATIONS (build_initial_messages "r")).messages
      = (build_initial_messages "r" ++ [m1c]) ++ [tool_result_message provider0 5 tc0] ∧
    ((chat_loop client2 provider0 5 MAX_ITERATIONS (build_initial_messages "r")).messages).map Message.role
      = ["system", "user", "assistant", "tool"] :=
  C2_loop_conversation client2 provider0 5 "r" m1c m2c tc0 rfl rfl rfl rfl rfl

/-- Claim C3: for every model client that on every call returns an assistant
message carrying at least one ToolCall, the loop terminates with the
MaxIterationsExceeded error after exactly 10 model calls (AwaitingModel
entries), never 11. -/
theorem C3_max_iterations (client : List Message → Except String Message) (p : SearchFn)
    (m : Nat) (r : String)
    (H : ∀ msgs, ∃ msg tcs, client msgs = .ok msg ∧ msg.tool_calls = some tcs ∧ tcs ≠ []) :
    chat_with_tools client r p m = .error max_iterations_error ∧
    (chat_loop client p m MAX_ITERATIONS (build_initial_messages r)).model_calls = 10 :=
  ⟨(chat_loop_always_tools client p m H MAX_ITERATIONS (build_initial_messages r)).1,
   (chat_loop_always_tools client p m H MAX_ITERATIONS (build_initial_messages r)).2⟩

/-- Witness for C3: the theorem applied to the concrete always-tool-calling
stub client and the empty-result provider. -/
theorem C3_witness :
    chat_with_tools client0 "hi" provider0 5 = .error max_iterations_error ∧
    (chat_loop client0 provider0 5 MAX_ITERATIONS (build_initial_messages "hi")).model_calls = 10 :=
  C3_max_iterations client0 provider0 5 "hi"
    (fun msgs => ⟨⟨"assistant", "", some [tc0]⟩, [tc0], rfl, rfl, by simp⟩)

/-- Claim C4: a failing tool execution does not abort the run — the loop
appends a tool-role message whose content is the error prefixed with
"Error executing tool: " and continues with the next model call — and a
model-call failure, the only other failure inside the loop, propagates and
ends the run, so tool-execution failure is the only failure kind recovered. -/
theorem C4_tool_error_recovery (client : List Message → Except String Message) (p : SearchFn)
    (m fuel : Nat) (msgs : List Message) :
    (∀ (msg : Message) (tcs : List ToolCallData),
      client msgs = .ok msg → msg.tool_calls = some tcs → tcs ≠ [] →
      chat_loop client p m (fuel + 1) msgs
        = ⟨(chat_loop client p m fuel ((msgs ++ [msg]) ++ tcs.map (tool_result_message p m))).result,
           (chat_loop client p m fuel ((msgs ++ [msg]) ++ tcs.map (tool_result_message p m))).messages,
           (chat_loop client p m fuel ((msgs ++ [msg]) ++ tcs.map (tool_result_message p m))).model_calls + 1⟩) ∧
    (∀ (tc : ToolCallData) (e : String),
      execute_tool tc p m = .error e →
      tool_result_message p m tc = ⟨"tool", "Error executing tool: " ++ e, none⟩) ∧
    (∀ e : String, client msgs = .error e →
      chat_loop client p m (fuel + 1) msgs = ⟨.error e, msgs, 1⟩) := by
  refine ⟨?_, ?_, ?_⟩
  · intro msg tcs h h2 h3
    exact chat_loop_tools client p m fuel msgs msg tcs h h2 h3
  · intro tc e h
    simp [tool_result_message, h]
  · intro e h
    exact chat_loop_client_error client p m fuel msgs e h

/-- Witness for C4: the theorem applied to concrete inputs — an unknown-tool
call converted to the prefixed tool-role error message, a failing client
whose error propagates, and the always-tool-calling stub whose turn appends
the assistant message and one tool result and continues. -/
theorem C4_witness :
    tool_result_message provider0 5 tcBad
      = ⟨"tool", "Error executing tool: Unknown tool: bad_tool", none⟩ ∧
    chat_loop clientErr provider0 5 1 [] = ⟨.error "boom", [], 1⟩ ∧
    chat_loop client0 provider0 5 1 (build_initial_messages "w")
      = ⟨.error max_iterations_error,
         (build_initial_messages "w" ++ [m1c]) ++ [tool_result_message provider0 5 tc0], 1⟩ :=
  ⟨(C4_tool_error_recovery client0 provider0 5 0 (build_initial_messages "w")).2.1 tcBad
      "Unknown tool: bad_tool" rfl,
   (C4_tool_error_recovery clientErr provider0 5 0 []).2.2 "boom" rfl,
   by
    rw [(C4_tool_error_recovery client0 provider0 5 0 (build_initial_messages "w")).1 m1c [tc0]
        rfl rfl (by simp)]
    rfl⟩

end TermAI

namespace TermAI

/-- Claim C5: execute_tool fails with the UnknownTool error for every call
whose function name is not "web_search"; for a "web_search" call it fails
with the MissingParameter error exactly when the arguments lack a "query"
field or that field is not a string, and otherwise it invokes the provider
search with that query and the given max_results, returning its serialized
results or its error. -/
theorem C5_execute_tool : ∀ (tc : ToolCallData) (p : SearchFn) (m : Nat),
    (tc.function.name ≠ "web_search" →
      execute_tool tc p m = .error ("Unknown tool: " ++ tc.function.name)) ∧
    (tc.function.name = "web_search" →
      (query_missing_or_nonstring tc.function.arguments →
        execute_tool tc p m = .error "Missing \x27query\x27 parameter in tool call") ∧
      (∀ q, tc.function.arguments.getField "query" = some (.str q) →
        execute_tool tc p m = (p q m).map to_string_pretty) ∧
      (¬ query_missing_or_nonstring tc.function.arguments ↔
        ∃ q, tc.function.arguments.getField "query" = some (.str q))) := by
  intro tc p m
  constructor
  · intro h
    simp [execute_tool, h]
  · intro hname
    cases hq : tc.function.arguments.getField "query" with
    | none =>
      have hidx : (tc.function.arguments.index "query").asStr = none := by
        simp [JsonValue.index, hq, JsonValue.asStr]
      refine ⟨fun _ => by simp [execute_tool, hname, hidx], ?_, ?_⟩
      · intro q hq2
        exact Option.noConfusion hq2
      · constructor
        · intro hn
          exact absurd (Or.inl hq) hn
        · rintro ⟨q, hq2⟩
          exact Option.noConfusion hq2
    | some v =>
      have hidx : tc.function.arguments.index "query" = v := by
        simp [JsonValue.index, hq]
      cases hs : v.asStr with
      | none =>
        have hidx2 : (tc.function.arguments.index "query").asStr = none := by
          rw [hidx, hs]
        refine ⟨fun _ => by simp [execute_tool, hname, hidx2], ?_, ?_⟩
        · intro q hq2
          have hv : v = .str q := Option.some.inj hq2
          rw [hv] at hs
          simp [JsonValue.asStr] at hs
        · constructor
          · intro hn
            exact absurd (Or.inr ⟨v, hq, hs⟩) hn
          · rintro ⟨q, hq2⟩
            have hv : v = .str q := Option.some.inj hq2
            rw [hv] at hs
            simp [JsonValue.asStr] at hs
      | some s =>
        have hv : v = .str s := asStr_some hs
        refine ⟨?_, ?_, ?_⟩
        · intro hcond
          rcases hcond with hn | ⟨w, hw, hwn⟩
          · rw [hn] at hq
            exact Option.noConfusion hq
          · rw [hq] at hw
            have hwv : v = w := Option.some.inj hw
            rw [← hwv, hv] at hwn
            simp [JsonValue.asStr] at hwn
        · intro q hq2
          have hv2 : v = .str q := Option.some.inj hq2
          have hidx3 : (tc.function.arguments.index "query").asStr = some q := by
            rw [hidx, hv2]
            rfl
          have hcomp : execute_tool tc p m
              = match p q m with
                | .error e => .error e
                | .ok results => .ok (to_string_pretty results) := by
            simp [execute_tool, hname, hidx3]
          rw [hcomp]
          cases hp : p q m <;> simp [Except.map]
        · constructor
          · intro _
            exact ⟨s, by rw [hv]⟩
          · rintro ⟨q, hq2⟩ hcond
            rcases hcond with hn | ⟨w, hw, hwn⟩
            · rw [hn] at hq
              exact Option.noConfusion hq
            · rw [hq] at hw
              have hwv : v = w := Option.some.inj hw
              rw [← hwv, hv] at hwn
              simp [JsonValue.asStr] at hwn

/-- Witness for C5: the theorem applied to three concrete calls — an unknown
tool name, a web_search call with empty arguments, and a well-formed
web_search call that reaches the provider. -/
theorem C5_witness :
    execute_tool tcBad provider0 5 = .error "Unknown tool: bad_tool" ∧
    execute_tool tcMissing provider0 5 = .error "Missing \x27query\x27 parameter in tool call" ∧
    execute_tool tc0 provider0 5 = (provider0 "q" 5).map to_string_pretty :=
  ⟨(C5_execute_tool tcBad provider0 5).1 (by decide),
   ((C5_execute_tool tcMissing provider0 5).2 rfl).1 (Or.inl rfl),
   ((C5_execute_tool tc0 provider0 5).2 rfl).2.1 "q" rfl⟩

/-- Claim C6: provider selection is a total deterministic function of the
explicit provider name and key presence — explicit "duckduckgo" selects
DuckDuckGo whether or not a key is present; no explicit name and no key
selects DuckDuckGo; no explicit name with a key selects Brave with that key;
explicit "brave" without a key fails with the MissingCredential error;
explicit "brave" with a key selects Brave; an explicit name recognized as
neither (after the lowering the selection applies) fails with the
UnknownProvider error. -/
theorem C6_provider_selection : ∀ args : Args,
    (args.search_provider = some "duckduckgo" →
      create_search_provider args = .ok .duckduckgo) ∧
    (args.search_provider = none → args.brave_api_key = none →
      create_search_provider args = .ok .duckduckgo) ∧
    (args.search_provider = none → ∀ k, args.brave_api_key = some k →
      create_search_provider args = .ok (.brave k)) ∧
    (args.search_provider = some "brave" → args.brave_api_key = none →
      create_search_provider args = .error missing_credential_error) ∧
    (args.search_provider = some "brave" → ∀ k, args.brave_api_key = some k →
      create_search_provider args = .ok (.brave k)) ∧
    (∀ s, args.search_provider = some s →
      rust_to_lowercase s ≠ "duckduckgo" → rust_to_lowercase s ≠ "brave" →
      create_search_provider args = .error (unknown_provider_error (rust_to_lowercase s))) := by
  intro args
  refine ⟨?_, ?_, ?_, ?_, ?_, ?_⟩
  · intro hsp
    simp [create_search_provider, hsp, lower_ddg]
  · intro hsp hk
    simp [create_search_provider, hsp, hk]
  · intro hsp k hk
    simp [create_search_provider, hsp, hk]
  · intro hsp hk
    simp [create_search_provider, hsp, hk, lower_brave, missing_credential_error]
  · intro hsp k hk
    simp [create_search_provider, hsp, hk, lower_brave]
  · intro s hsp h1 h2
    simp [create_search_provider, hsp, h1, h2, unknown_provider_error]

/-- Witness for C6: the theorem applied to concrete argument records covering
an explicit DuckDuckGo choice, Brave without a key, an unrecognized name, and
auto-detection of Brave from key presence. -/
theorem C6_witness :
    create_search_provider ⟨none, "llama3.2", "http://localhost:11434", true, some "duckduckgo", none, 5⟩
      = .ok .duckduckgo ∧
    create_search_provider ⟨none, "llama3.2", "http://localhost:11434", true, some "brave", none, 5⟩
      = .error missing_credential_error ∧
    create_search_provider ⟨none, "llama3.2", "http://localhost:11434", true, some "invalid", none, 5⟩
      = .error (unknown_provider_error (rust_to_lowercase "invalid")) ∧
    create_search_provider ⟨none, "llama3.2", "http://localhost:11434", true, none, some "test-key", 5⟩
      = .ok (.brave "test-key") :=
  ⟨(C6_provider_selection _).1 rfl,
   (C6_provider_selection _).2.2.2.1 rfl rfl,
   (C6_provider_selection _).2.2.2.2.2 "invalid" rfl (by decide) (by decide),
   (C6_provider_selection _).2.2.1 rfl "test-key" rfl⟩

/-- Claim C10: explicit provider names are matched case-insensitively — any
name whose ASCII lowering is "duckduckgo" selects DuckDuckGo, and any name
whose lowering is "brave" selects Brave when a key is present and fails with
the MissingCredential error when none is, instead of UnknownProvider. -/
theorem C10_case_insensitive : ∀ (args : Args) (s : String),
    args.search_provider = some s →
    (rust_to_lowercase s = "duckduckgo" → create_search_provider args = .ok .duckduckgo) ∧
    (rust_to_lowercase s = "brave" →
      (∀ k, args.brave_api_key = some k → create_search_provider args = .ok (.brave k)) ∧
      (args.brave_api_key = none →
        create_search_provider args = .error missing_credential_error)) := by
  intro args s hsp
  constructor
  · intro hlow
    simp [create_search_provider, hsp, hlow]
  · intro hlow
    constructor
    · intro k hk
      simp [create_search_provider, hsp, hlow, hk]
    · intro hk
      simp [create_search_provider, hsp, hlow, hk, missing_credential_error]

/-- Witness for C10: the theorem applied to the casing variants "DUCKDUCKGO"
and "Brave". -/
theorem C10_witness :
    create_search_provider ⟨none, "llama3.2", "http://localhost:11434", true, some "DUCKDUCKGO", none, 5⟩
      = .ok .duckduckgo ∧
    create_search_provider ⟨none, "llama3.2", "http://localhost:11434", true, some "Brave", some "test-key", 5⟩
      = .ok (.brave "test-key") ∧
    create_search_provider ⟨none, "llama3.2", "http://localhost:11434", true, some "Brave", none, 5⟩
      = .error missing_credential_error :=
  ⟨(C10_case_insensitive _ "DUCKDUCKGO" rfl).1 (by decide),
   ((C10_case_insensitive _ "Brave" rfl).2 (by decide)).1 "test-key" rfl,
   ((C10_case_insensitive _ "Brave" rfl).2 (by decide)).2 rfl⟩

end TermAI
